import Mathlib

/-!
Speech-generation JNI bridge.

A shallow embedding of the two native bridges of the repository:

* `Bark`  : `Java_com_github_numq_tts_bark_NativeBarkTextToSpeech.cpp` together with
  `deleter.h` (a registry of bark contexts keyed by a `jlong` handle);
* `Piper` : `Java_com_github_numq_speechgeneration_piper_NativePiperSpeechGeneration.cpp`
  (the process-wide eSpeak subsystem flag and the phonemize call).

The external engines (bark, espeak-ng) and the JVM are black boxes: every call into them
is an oracle carried by a structure, and every boundary function returns, next to its
return value, the new value of the static variables, the messages handed to
`handleException` and the engine calls it made, in order.
-/

namespace SpeechGeneration

/-- A `jlong`: a signed 64-bit integer, kept as an `Int`. -/
abbrev jlong := Int

/-- A `jstring` argument as the native side sees it: the characters that
`GetStringUTFChars` yields for it, `none` when that call returns `nullptr`. -/
abbrev jstring := Option String

/-- A `jbyte`, as its eight bits. -/
abbrev jbyte := Fin 256

/-- Lock guards used on `static std::shared_mutex mutex`:
`std::unique_lock` is exclusive, `std::shared_lock` is shared. -/
inductive LockMode
  | unique_lock
  | shared_lock
  deriving DecidableEq, Repr

/-- The observable state of a `std::shared_mutex`: whether an exclusive owner holds it and
how many shared owners hold it. -/
structure SharedMutex where
  exclusiveOwner : Bool
  sharedOwners : Nat
  deriving DecidableEq, Repr

/-- A mutex nobody holds. -/
def SharedMutex.idle : SharedMutex := ⟨false, 0⟩

/-- Whether constructing a guard of the given mode returns at once (does not block):
`lock()` needs no owner at all, `lock_shared()` needs no exclusive owner. -/
def SharedMutex.canAcquire (m : SharedMutex) : LockMode → Bool
  | .unique_lock => !m.exclusiveOwner && m.sharedOwners == 0
  | .shared_lock => !m.exclusiveOwner

/-- The mutex once a guard of the given mode has been constructed. -/
def SharedMutex.acquire (m : SharedMutex) : LockMode → SharedMutex
  | .unique_lock => { m with exclusiveOwner := true }
  | .shared_lock => { m with sharedOwners := m.sharedOwners + 1 }

/-- Conversion of a value to `jsize` (a signed 32-bit integer): reduction modulo `2^32`
into the range `[-2^31, 2^31)`. -/
def static_cast_jsize (x : Int) : Int :=
  let r := x % 2 ^ 32
  if r < 2 ^ 31 then r else r - 2 ^ 32

/-- Reinterpretation of a pointer (an address) as a `jlong`: reduction modulo `2^64`
into the range `[-2^63, 2^63)`. -/
def reinterpret_cast_jlong (address : Nat) : jlong :=
  let r := (address : Int) % 2 ^ 64
  if r < 2 ^ 63 then r else r - 2 ^ 64

namespace Bark

/-- A `float` object, as the four bytes of its object representation in memory order. -/
structure float where
  b0 : jbyte
  b1 : jbyte
  b2 : jbyte
  b3 : jbyte
  deriving DecidableEq, Repr

/-- The four bytes a `float` occupies. -/
def float.bytes (s : float) : List jbyte := [s.b0, s.b1, s.b2, s.b3]

/-- The size of a `float` in bytes: `sizeof(float)`. -/
def sizeof_float : Nat := 4

/-- The memory behind a `float *`, read through `reinterpret_cast<const jbyte *>`. -/
def reinterpret_cast_jbytes (data : List float) : List jbyte :=
  data.flatMap float.bytes

/-- What a context holds once `bark_generate_audio(context, text, 1)` has returned:
the call's own result, then what `bark_get_audio_data` and `bark_get_audio_data_size`
report (`none` is a null data pointer; the size is a C `int`). -/
structure Audio where
  generated : Bool
  data : Option (List float)
  data_size : Int
  deriving DecidableEq, Repr

/-- The bark engine. A `bark_context *` is its address, `0` being `nullptr`. -/
structure Engine where
  bark_load_model : String → Nat
  bark_generate_audio : Nat → String → Audio

/-- The JVM services the bridge relies on: whether the heap can supply a byte array of
the given length. -/
structure JNIEnv where
  canAllocate : Nat → Bool

/-- Calls into the engine that a boundary function makes. -/
inductive Call
  | bark_context_default_params
  | bark_load_model (path : String)
  | bark_generate_audio (context : Nat) (text : String)
  | bark_get_audio_data (context : Nat)
  | bark_get_audio_data_size (context : Nat)
  | bark_free (context : Nat)
  deriving DecidableEq, Repr

/-- The static `std::unordered_map<jlong, bark_context_ptr> pointers`: the entries, each a
handle with the pointer its `bark_context_ptr` owns. -/
abbrev Registry := List (jlong × Nat)

/-- The lookup `pointers.find(handle)`: the owned pointer of the entry, `none` for `end()`. -/
def find : Registry → jlong → Option Nat
  | [], _ => none
  | (k, p) :: rest, handle => if k = handle then some p else find rest handle

/-- The call operator of `bark_context_deleter`: frees a non-null context. -/
def bark_context_deleter (context : Nat) : List Call :=
  if context ≠ 0 then [Call.bark_free context] else []

/-- Destruction of a `bark_context_ptr`: the deleter runs when the owned pointer is
non-null. -/
def destroy (owned : Nat) : List Call :=
  if owned ≠ 0 then bark_context_deleter owned else []

/-- The removal `pointers.erase(handle)`: the remaining entries, and the owned pointers of
the removed ones (their number is the value `erase` returns). -/
def erase (pointers : Registry) (handle : jlong) : Registry × List Nat :=
  (pointers.filter (fun e => e.1 ≠ handle),
   (pointers.filter (fun e => e.1 = handle)).map Prod.snd)

/-- The assignment `pointers[handle] = std::move(ptr)`: the entry is created when absent,
and a pointer the entry owned before is handed back for destruction. -/
def assign : Registry → jlong → Nat → Registry × List Nat
  | [], handle, ptr => ([(handle, ptr)], [])
  | (k, p) :: rest, handle, ptr =>
    if k = handle then ((k, ptr) :: rest, [p])
    else ((k, p) :: (assign rest handle ptr).1, (assign rest handle ptr).2)

/-- What a boundary function leaves behind: its return value, the registry, the messages
passed to `handleException` (each one a `ThrowNew` of the exception class) and the engine
calls made. -/
structure Outcome (α : Type) where
  result : α
  pointers : Registry
  thrown : List String
  calls : List Call

/-- The helper `getPointer`: throws when the handle has no entry. -/
def getPointer (pointers : Registry) (handle : jlong) : Except String Nat :=
  match find pointers handle with
  | none => .error "Invalid handle"
  | some context => .ok context

/-- The JNI call `NewByteArray(length)`: `nullptr` for a negative length or when the heap
cannot supply the array, else a zero-filled array. -/
def NewByteArray (env : JNIEnv) (length : Int) : Option (List jbyte) :=
  if length < 0 then none
  else if env.canAllocate length.toNat then some (List.replicate length.toNat 0)
  else none

/-- The JNI call `SetByteArrayRegion(array, start, len, buf)`: `len` bytes read at `buf`
replace the region of the array that begins at `start`. -/
def SetByteArrayRegion (array : List jbyte) (start len : Int) (buf : List jbyte) :
    List jbyte :=
  array.take start.toNat ++ buf.take len.toNat ++ array.drop (start.toNat + len.toNat)

/-- The expression `static_cast<jsize>(data_size * sizeof(float))`: the product is taken in
`size_t` (modulo `2^64`) and then converted to `jsize`. -/
def byteLength (data_size : Int) : Int :=
  static_cast_jsize ((data_size * (sizeof_float : Int)) % 2 ^ 64)

/-- The boundary functions of the bark bridge. -/
inductive BoundaryOp
  | initNative
  | generateNative
  | freeNative
  deriving DecidableEq, Repr

/-- The guard each boundary function constructs on `mutex` in its first statement. -/
def lockMode : BoundaryOp → LockMode
  | .initNative => .unique_lock
  | .generateNative => .shared_lock
  | .freeNative => .shared_lock

/-- The hook `JNI_OnUnload`: returns at once when `GetEnv` does not answer `JNI_OK`,
else (the global reference to the exception class being dropped) clears the registry,
destroying every entry. -/
def JNI_OnUnload (getEnvOk : Bool) (pointers : Registry) : Outcome Unit :=
  if !getEnvOk then ⟨(), pointers, [], []⟩
  else ⟨(), [], [], pointers.flatMap (fun e => destroy e.2)⟩

/-- The boundary function `initNative`. -/
def initNative (engine : Engine) (pointers : Registry) (modelPath : jstring) :
    Outcome jlong :=
  match modelPath with
  | none => ⟨-1, pointers, ["Failed to get model path string"], []⟩
  | some modelPathStr =>
    if modelPathStr = "" then
      ⟨-1, pointers, ["Model path should not be empty"], []⟩
    else
      let context := engine.bark_load_model modelPathStr
      if context = 0 then
        ⟨-1, pointers, ["Failed to create native instance"],
          [Call.bark_context_default_params, Call.bark_load_model modelPathStr]⟩
      else
        let handle := reinterpret_cast_jlong context
        let assigned := assign pointers handle context
        ⟨handle, assigned.1, [],
          Call.bark_context_default_params :: Call.bark_load_model modelPathStr ::
            assigned.2.flatMap destroy⟩

/-- The boundary function `generateNative`; `none` as a result is `nullptr`. -/
def generateNative (engine : Engine) (env : JNIEnv) (pointers : Registry)
    (handle : jlong) (text : jstring) : Outcome (Option (List jbyte)) :=
  match getPointer pointers handle with
  | .error e => ⟨none, pointers, [e], []⟩
  | .ok context =>
    match text with
    | none => ⟨none, pointers, ["Failed to get text string"], []⟩
    | some textStr =>
      let audio := engine.bark_generate_audio context textStr
      if audio.generated then
        let calls := [Call.bark_generate_audio context textStr,
          Call.bark_get_audio_data context, Call.bark_get_audio_data_size context]
        match audio.data with
        | none => ⟨none, pointers, ["Invalid audio data or size"], calls⟩
        | some data =>
          if audio.data_size ≤ 0 then
            ⟨none, pointers, ["Invalid audio data or size"], calls⟩
          else
            let length := byteLength audio.data_size
            match NewByteArray env length with
            | none => ⟨none, pointers, ["Failed to allocate byte array"], calls⟩
            | some byteArray =>
              ⟨some (SetByteArrayRegion byteArray 0 length (reinterpret_cast_jbytes data)),
                pointers, [], calls⟩
      else
        ⟨NewByteArray env 0, pointers, [], [Call.bark_generate_audio context textStr]⟩

/-- The boundary function `freeNative`. -/
def freeNative (pointers : Registry) (handle : jlong) : Outcome Unit :=
  let erased := erase pointers handle
  if erased.2.length = 0 then
    ⟨(), erased.1, ["Unable to free native pointer"], erased.2.flatMap destroy⟩
  else
    ⟨(), erased.1, [], erased.2.flatMap destroy⟩

end Bark

namespace Piper

/-- What `espeak_TextToPhonemesWithTerminator` leaves behind: the text pointer it was
given by address (the text from that position on, `none` when the engine set it to
`NULL`), the phoneme string it returns (`none` for a null pointer) and the terminator it
stored. -/
structure Phonemes where
  inputTextPointer : Option String
  clausePhonemes : Option String
  terminator : Int
  deriving DecidableEq, Repr

/-- The espeak-ng engine. `EE_OK` is the status constant of `espeak_ng.h`. -/
structure Engine where
  EE_OK : Int
  espeak_Initialize : String → Int
  espeak_SetVoiceByName : String → Int
  espeak_TextToPhonemesWithTerminator : String → Phonemes

/-- The JVM services the bridge relies on: whether `NewObjectArray` can supply the
result array. -/
structure JNIEnv where
  canAllocateArray : Bool

/-- Calls into the engine that a boundary function makes. -/
inductive Call
  | espeak_Initialize (path : String)
  | espeak_SetVoiceByName (voice : String)
  | espeak_TextToPhonemesWithTerminator (text : String)
  | espeak_Terminate
  deriving DecidableEq, Repr

/-- What a boundary function leaves behind: its return value, the static flag
`isInitialized`, the messages passed to `handleException` and the engine calls made. -/
structure Outcome (α : Type) where
  result : α
  isInitialized : Bool
  thrown : List String
  calls : List Call

/-- The JNI call `NewObjectArray(length, elementClass, nullptr)`: `nullptr` when the array
cannot be constructed, else an array whose every element is `null`. -/
def NewObjectArray (env : JNIEnv) (length : Nat) : Option (List (Option String)) :=
  if env.canAllocateArray then some (List.replicate length none) else none

/-- The JNI call `NewStringUTF(bytes)`: the Java string for the characters, and `NULL`
for a null pointer. -/
def NewStringUTF (bytes : Option String) : Option String := bytes

/-- The JNI call `SetObjectArrayElement(array, index, value)`. -/
def SetObjectArrayElement (array : List (Option String)) (index : Nat)
    (value : Option String) : List (Option String) :=
  array.set index value

/-- The decimal rendering `std::to_string(int)`. -/
def to_string (value : Int) : String := toString value

/-- The static `isInitialized` when the library is loaded. -/
def initial : Bool := false

/-- The hook `JNI_OnUnload`: returns at once when `GetEnv` does not answer `JNI_OK`,
else (the global class references being dropped) terminates the engine when the flag is
set and resets the flag. -/
def JNI_OnUnload (getEnvOk : Bool) (isInitialized : Bool) : Outcome Unit :=
  if !getEnvOk then ⟨(), isInitialized, [], []⟩
  else if isInitialized then ⟨(), false, [], [Call.espeak_Terminate]⟩
  else ⟨(), isInitialized, [], []⟩

/-- The boundary function `initNative`. -/
def initNative (engine : Engine) (isInitialized : Bool) (dataPath : jstring) :
    Outcome Unit :=
  if isInitialized then ⟨(), isInitialized, [], []⟩
  else
    match dataPath with
    | none => ⟨(), isInitialized, ["Failed to get eSpeak data path string"], []⟩
    | some dataPathStr =>
      if engine.espeak_Initialize dataPathStr = -1 then
        ⟨(), isInitialized, ["Failed to initialize espeak-ng, check your data path"],
          [Call.espeak_Initialize dataPathStr]⟩
      else
        ⟨(), true, [], [Call.espeak_Initialize dataPathStr]⟩

/-- The boundary function `phonemizeNative`; `none` as a result is `nullptr`, and `none`
as an element of the result array is a `null` element. -/
def phonemizeNative (engine : Engine) (env : JNIEnv) (isInitialized : Bool)
    (voice text : jstring) : Outcome (Option (List (Option String))) :=
  if !isInitialized then ⟨none, isInitialized, ["eSpeak is not initialized"], []⟩
  else
    match voice with
    | none => ⟨none, isInitialized, ["Failed to get voice string"], []⟩
    | some voiceStr =>
      if engine.espeak_SetVoiceByName voiceStr ≠ engine.EE_OK then
        ⟨none, isInitialized, ["Failed to set voice"],
          [Call.espeak_SetVoiceByName voiceStr]⟩
      else
        match text with
        | none =>
          ⟨none, isInitialized, ["Failed to get text string"],
            [Call.espeak_SetVoiceByName voiceStr]⟩
        | some textStr =>
          let phonemes := engine.espeak_TextToPhonemesWithTerminator textStr
          let calls := [Call.espeak_SetVoiceByName voiceStr,
            Call.espeak_TextToPhonemesWithTerminator textStr]
          match NewObjectArray env 3 with
          | none => ⟨none, isInitialized, ["Failed to create result array"], calls⟩
          | some resultArray =>
            let filled0 :=
              SetObjectArrayElement resultArray 0 (NewStringUTF phonemes.inputTextPointer)
            let filled1 :=
              SetObjectArrayElement filled0 1 (NewStringUTF phonemes.clausePhonemes)
            let filled2 :=
              SetObjectArrayElement filled1 2
                (NewStringUTF (some (to_string phonemes.terminator)))
            ⟨some filled2, isInitialized, [], calls⟩

/-- One call of a boundary function by the host, with the engine and JVM behaviour it
meets. -/
inductive BoundaryCall
  | initNative (engine : Engine) (dataPath : jstring)
  | phonemizeNative (engine : Engine) (env : JNIEnv) (voice text : jstring)

/-- The flag after one boundary call. -/
def step (isInitialized : Bool) : BoundaryCall → Bool
  | .initNative engine dataPath => (initNative engine isInitialized dataPath).isInitialized
  | .phonemizeNative engine env voice text =>
    (phonemizeNative engine env isInitialized voice text).isInitialized

/-- Whether the call is an `initNative` call that raised nothing. -/
def initSucceeded (isInitialized : Bool) : BoundaryCall → Bool
  | .initNative engine dataPath =>
    decide ((initNative engine isInitialized dataPath).thrown = [])
  | .phonemizeNative _ _ _ _ => false

/-- The flag after a sequence of boundary calls. -/
def run : Bool → List BoundaryCall → Bool
  | isInitialized, [] => isInitialized
  | isInitialized, call :: rest => run (step isInitialized call) rest

/-- Whether no `initNative` call of the sequence succeeded. -/
def noInitSucceeded : Bool → List BoundaryCall → Bool
  | _, [] => true
  | isInitialized, call :: rest =>
    !initSucceeded isInitialized call && noInitSucceeded (step isInitialized call) rest

end Piper

end SpeechGeneration

namespace SpeechGeneration

namespace Bark

/-! Registry lemmas -/

theorem find_erase_self (pointers : Registry) (handle : jlong) :
    find (erase pointers handle).1 handle = none := by
  induction pointers with
  | nil => simp [erase, find]
  | cons e rest ih =>
    obtain ⟨k, p⟩ := e
    by_cases hk : k = handle
    · simpa [erase, hk] using ih
    · simpa [erase, hk, find] using ih

theorem erase_count_of_find_none (pointers : Registry) (handle : jlong)
    (hnone : find pointers handle = none) : (erase pointers handle).2 = [] := by
  induction pointers with
  | nil => simp [erase]
  | cons e rest ih =>
    obtain ⟨k, p⟩ := e
    by_cases hk : k = handle
    · simp [find, hk] at hnone
    · simp only [find, hk, if_false] at hnone
      simpa [erase, hk] using ih hnone

theorem erase_rest_of_find_none (pointers : Registry) (handle : jlong)
    (hnone : find pointers handle = none) : (erase pointers handle).1 = pointers := by
  induction pointers with
  | nil => simp [erase]
  | cons e rest ih =>
    obtain ⟨k, p⟩ := e
    by_cases hk : k = handle
    · simp [find, hk] at hnone
    · simp only [find, hk, if_false] at hnone
      simpa [erase, hk] using ih hnone

theorem erase_count_of_find_some (pointers : Registry) (handle : jlong)
    (hsome : find pointers handle ≠ none) : (erase pointers handle).2 ≠ [] := by
  induction pointers with
  | nil => simp [find] at hsome
  | cons e rest ih =>
    obtain ⟨k, p⟩ := e
    by_cases hk : k = handle
    · simp [erase, hk]
    · simp only [find, hk, if_false] at hsome
      simpa [erase, hk] using ih hsome

theorem freeNative_pointers (pointers : Registry) (handle : jlong) :
    (freeNative pointers handle).pointers = (erase pointers handle).1 := by
  simp only [freeNative]
  split <;> rfl

theorem freeNative_thrown_of_find_none (pointers : Registry) (handle : jlong)
    (hnone : find pointers handle = none) :
    (freeNative pointers handle).thrown = ["Unable to free native pointer"] := by
  simp [freeNative, erase_count_of_find_none pointers handle hnone]

theorem freeNative_thrown_of_find_some (pointers : Registry) (handle : jlong)
    (hsome : find pointers handle ≠ none) : (freeNative pointers handle).thrown = [] := by
  have hne := erase_count_of_find_some pointers handle hsome
  unfold freeNative
  rw [if_neg (by simpa using hne)]

/-! Claims on the bark bridge -/

/-- C1: for every registry, every handle that has an entry and every text, `freeNative` on
the handle raises nothing, and `generateNative` on the same handle afterwards raises
exactly "Invalid handle", returns `nullptr`, leaves the registry as it is and makes no
engine call (so `bark_generate_audio` is not invoked). -/
theorem generateNative_after_freeNative (engine : Engine) (env : JNIEnv)
    (pointers : Registry) (handle : jlong) (text : jstring)
    (hentry : find pointers handle ≠ none) :
    (freeNative pointers handle).thrown = [] ∧
    (generateNative engine env (freeNative pointers handle).pointers handle text).thrown
      = ["Invalid handle"] ∧
    (generateNative engine env (freeNative pointers handle).pointers handle text).result
      = none ∧
    (generateNative engine env (freeNative pointers handle).pointers handle text).calls
      = [] := by
  refine ⟨freeNative_thrown_of_find_some pointers handle hentry, ?_⟩
  rw [freeNative_pointers]
  simp [generateNative, getPointer, find_erase_self]

theorem generateNative_after_freeNative_witness :
    find [(4096, 4096), (8192, 8192)] 4096 ≠ none ∧
    (freeNative [(4096, 4096), (8192, 8192)] 4096).thrown = [] ∧
    (generateNative ⟨fun _ => 4096, fun _ _ => ⟨true, some [⟨0, 0, 128, 63⟩], 1⟩⟩
      ⟨fun _ => true⟩ (freeNative [(4096, 4096), (8192, 8192)] 4096).pointers 4096
      (some "hello")).thrown = ["Invalid handle"] ∧
    (generateNative ⟨fun _ => 4096, fun _ _ => ⟨true, some [⟨0, 0, 128, 63⟩], 1⟩⟩
      ⟨fun _ => true⟩ (freeNative [(4096, 4096), (8192, 8192)] 4096).pointers 4096
      (some "hello")).result = none ∧
    (generateNative ⟨fun _ => 4096, fun _ _ => ⟨true, some [⟨0, 0, 128, 63⟩], 1⟩⟩
      ⟨fun _ => true⟩ (freeNative [(4096, 4096), (8192, 8192)] 4096).pointers 4096
      (some "hello")).calls = [] :=
  ⟨by decide, generateNative_after_freeNative _ _ _ _ _ (by decide)⟩

/-- C2: `freeNative` raises an error exactly when the handle has no entry; the failing call
raises "Unable to free native pointer" and leaves the registry unchanged; and a second
`freeNative` on the same handle, right after a first one, always fails in that way. -/
theorem freeNative_error_iff (pointers : Registry) (handle : jlong) :
    ((freeNative pointers handle).thrown ≠ [] ↔ find pointers handle = none) ∧
    (find pointers handle = none →
      (freeNative pointers handle).thrown = ["Unable to free native pointer"] ∧
      (freeNative pointers handle).pointers = pointers) ∧
    (freeNative (freeNative pointers handle).pointers handle).thrown
      = ["Unable to free native pointer"] ∧
    (freeNative (freeNative pointers handle).pointers handle).pointers
      = (freeNative pointers handle).pointers := by
  have hafter : find (freeNative pointers handle).pointers handle = none := by
    rw [freeNative_pointers]; exact find_erase_self pointers handle
  refine ⟨⟨fun hthrown => ?_, fun hnone => ?_⟩, fun hnone => ⟨?_, ?_⟩, ?_, ?_⟩
  · by_contra hsome
    exact hthrown (freeNative_thrown_of_find_some pointers handle hsome)
  · simp [freeNative_thrown_of_find_none pointers handle hnone]
  · exact freeNative_thrown_of_find_none pointers handle hnone
  · rw [freeNative_pointers]; exact erase_rest_of_find_none pointers handle hnone
  · exact freeNative_thrown_of_find_none _ handle hafter
  · rw [freeNative_pointers _ handle]; exact erase_rest_of_find_none _ handle hafter

theorem freeNative_error_iff_witness :
    ((freeNative [(8192, 8192)] 4096).thrown ≠ [] ↔ find [(8192, 8192)] 4096 = none) ∧
    (find [(8192, 8192)] 4096 = none →
      (freeNative [(8192, 8192)] 4096).thrown = ["Unable to free native pointer"] ∧
      (freeNative [(8192, 8192)] 4096).pointers = [(8192, 8192)]) ∧
    (freeNative (freeNative [(8192, 8192)] 4096).pointers 4096).thrown
      = ["Unable to free native pointer"] ∧
    (freeNative (freeNative [(8192, 8192)] 4096).pointers 4096).pointers
      = (freeNative [(8192, 8192)] 4096).pointers :=
  freeNative_error_iff [(8192, 8192)] 4096

/-- C3 (the code at the failing input): `freeNative` constructs a shared guard, the same
mode as `generateNative`, while `initNative` constructs an exclusive one; so with a
`generateNative` call holding its guard, the guard of `freeNative` is granted at once,
whereas the guard of `initNative` is not. -/
theorem freeNative_lock_is_shared :
    lockMode BoundaryOp.freeNative = LockMode.shared_lock ∧
    lockMode BoundaryOp.generateNative = LockMode.shared_lock ∧
    lockMode BoundaryOp.initNative = LockMode.unique_lock ∧
    ((SharedMutex.idle.acquire (lockMode BoundaryOp.generateNative)).canAcquire
      (lockMode BoundaryOp.freeNative)) = true ∧
    ((SharedMutex.idle.acquire (lockMode BoundaryOp.generateNative)).canAcquire
      (lockMode BoundaryOp.initNative)) = false := by
  decide

/-! The audio path of `generateNative` -/

theorem generateNative_of_audio (engine : Engine) (env : JNIEnv) (pointers : Registry)
    (handle : jlong) (context : Nat) (textStr : String) (samples : List float) (n : Int)
    (hvalid : find pointers handle = some context)
    (haudio : engine.bark_generate_audio context textStr = ⟨true, some samples, n⟩)
    (hpos : 0 < n) :
    generateNative engine env pointers handle (some textStr) =
      match NewByteArray env (byteLength n) with
      | none =>
        ⟨none, pointers, ["Failed to allocate byte array"],
          [Call.bark_generate_audio context textStr, Call.bark_get_audio_data context,
            Call.bark_get_audio_data_size context]⟩
      | some byteArray =>
        ⟨some (SetByteArrayRegion byteArray 0 (byteLength n)
            (reinterpret_cast_jbytes samples)),
          pointers, [],
          [Call.bark_generate_audio context textStr, Call.bark_get_audio_data context,
            Call.bark_get_audio_data_size context]⟩ := by
  have hnot : ¬ n ≤ 0 := not_le.mpr hpos
  simp only [generateNative, getPointer, hvalid, haudio, if_true, hnot, if_false]

theorem NewByteArray_negative (env : JNIEnv) (length : Int) (hneg : length < 0) :
    NewByteArray env length = none := by
  simp [NewByteArray, hneg]

theorem NewByteArray_zero (env : JNIEnv) (hheap : env.canAllocate 0 = true) :
    NewByteArray env 0 = some [] := by
  simp [NewByteArray, hheap]

theorem byteLength_of_fit (n : Int) (hpos : 0 < n) (hfit : 4 * n < 2 ^ 31) :
    byteLength n = 4 * n := by
  unfold byteLength static_cast_jsize sizeof_float
  have h1 : (n * ((4 : Nat) : Int)) % 2 ^ 64 = 4 * n := by
    rw [Int.emod_eq_of_lt] <;> push_cast <;> omega
  have h2 : (4 * n) % 2 ^ 32 = 4 * n := by
    rw [Int.emod_eq_of_lt] <;> omega
  simp only [h1, h2]
  rw [if_pos hfit]

theorem reinterpret_cast_jbytes_length (data : List float) :
    (reinterpret_cast_jbytes data).length = 4 * data.length := by
  induction data with
  | nil => rfl
  | cons s rest ih =>
    simp only [reinterpret_cast_jbytes, List.flatMap_cons, List.length_append,
      List.length_cons] at ih ⊢
    simp only [float.bytes, List.length_cons, List.length_nil]
    omega

theorem reinterpret_cast_jbytes_sample (data : List float) (i : Nat)
    (hi : i < data.length) :
    ((reinterpret_cast_jbytes data).drop (4 * i)).take 4 = (data.get ⟨i, hi⟩).bytes := by
  induction data generalizing i with
  | nil => simp at hi
  | cons s rest ih =>
    cases i with
    | zero =>
      simp [reinterpret_cast_jbytes, float.bytes]
    | succ j =>
      have hj : j < rest.length := by simpa using hi
      have hstep : (reinterpret_cast_jbytes (s :: rest)).drop (4 * (j + 1))
          = (reinterpret_cast_jbytes rest).drop (4 * j) := by
        have h4 : 4 * (j + 1) = (4 * j) + 4 := by omega
        rw [h4, ← List.drop_drop]
        simp [reinterpret_cast_jbytes, float.bytes]
      rw [hstep, ih j hj]
      rfl

/-- C4 (as stated, refuted): with a valid handle and a non-null buffer of `2^29` samples
(a positive 32-bit count), `generateNative` returns no buffer and raises "Failed to
allocate byte array"; with `2^30` samples it returns a buffer of length `0`, not `2^32`. -/
theorem generateNative_bytes_counterexample :
    find [(4096, 4096)] 4096 = some 4096 ∧
    (0 : Int) < 536870912 ∧ (536870912 : Int) < 2 ^ 31 ∧
    (generateNative
      ⟨fun _ => 4096, fun _ _ =>
        ⟨true, some (List.replicate 536870912 ⟨0, 0, 128, 63⟩), 536870912⟩⟩
      ⟨fun _ => true⟩ [(4096, 4096)] 4096 (some "hello")).result = none ∧
    (generateNative
      ⟨fun _ => 4096, fun _ _ =>
        ⟨true, some (List.replicate 536870912 ⟨0, 0, 128, 63⟩), 536870912⟩⟩
      ⟨fun _ => true⟩ [(4096, 4096)] 4096 (some "hello")).thrown
        = ["Failed to allocate byte array"] ∧
    (generateNative
      ⟨fun _ => 4096, fun _ _ =>
        ⟨true, some (List.replicate 1073741824 ⟨0, 0, 128, 63⟩), 1073741824⟩⟩
      ⟨fun _ => true⟩ [(4096, 4096)] 4096 (some "hello")).result = some [] := by
  have hneg : byteLength 536870912 < 0 := by decide
  have hzero : byteLength 1073741824 = 0 := by decide
  refine ⟨by decide, by decide, by decide, ?_, ?_, ?_⟩
  · rw [generateNative_of_audio _ _ _ _ 4096 "hello" _ 536870912 (by decide) rfl (by decide),
      NewByteArray_negative _ _ hneg]
  · rw [generateNative_of_audio _ _ _ _ 4096 "hello" _ 536870912 (by decide) rfl (by decide),
      NewByteArray_negative _ _ hneg]
  · rw [generateNative_of_audio _ _ _ _ 4096 "hello" _ 1073741824 (by decide) rfl
      (by decide), hzero, NewByteArray_zero _ rfl]
    simp only [SetByteArrayRegion, Int.toNat_zero, List.take_zero, List.drop_nil,
      List.append_nil]

/-- C4 (amended): for a valid handle, a readable text, a generation that reports success
with a non-null buffer of `n` samples, `0 < n` and `4 * n < 2^31` (the byte count fits a
`jsize`), and a heap that supplies the array, `generateNative` raises nothing and returns a
buffer of length `4 * n` whose bytes `4*i .. 4*i+3` are the four bytes of sample `i`. -/
theorem generateNative_bytes (engine : Engine) (env : JNIEnv) (pointers : Registry)
    (handle : jlong) (context : Nat) (textStr : String) (samples : List float) (n : Int)
    (hvalid : find pointers handle = some context)
    (haudio : engine.bark_generate_audio context textStr = ⟨true, some samples, n⟩)
    (hcount : (samples.length : Int) = n)
    (hpos : 0 < n) (hfit : 4 * n < 2 ^ 31)
    (hheap : env.canAllocate (4 * n).toNat = true) :
    ∃ buffer : List jbyte,
      (generateNative engine env pointers handle (some textStr)).result = some buffer ∧
      (generateNative engine env pointers handle (some textStr)).thrown = [] ∧
      (buffer.length : Int) = 4 * n ∧
      ∀ (i : Nat) (hi : i < samples.length),
        (buffer.drop (4 * i)).take 4 = (samples.get ⟨i, hi⟩).bytes := by
  have hlen : byteLength n = 4 * n := byteLength_of_fit n hpos hfit
  have hnat : (4 * n).toNat = 4 * samples.length := by omega
  have hnew : NewByteArray env (byteLength n)
      = some (List.replicate (4 * samples.length) 0) := by
    have hnn : ¬ 4 * n < 0 := by omega
    rw [hlen]
    rw [hnat] at hheap
    simp only [NewByteArray, hnn, if_false, hnat, hheap, if_true]
  have hcopy : SetByteArrayRegion (List.replicate (4 * samples.length) 0) 0 (byteLength n)
      (reinterpret_cast_jbytes samples) = reinterpret_cast_jbytes samples := by
    rw [hlen]
    simp only [SetByteArrayRegion, Int.toNat_zero, List.take_zero, List.nil_append, hnat,
      zero_add]
    rw [List.take_of_length_le (by rw [reinterpret_cast_jbytes_length]),
      List.drop_of_length_le (by simp), List.append_nil]
  refine ⟨reinterpret_cast_jbytes samples, ?_, ?_, ?_, ?_⟩
  · rw [generateNative_of_audio engine env pointers handle context textStr samples n
      hvalid haudio hpos, hnew]
    simp only [hcopy]
  · rw [generateNative_of_audio engine env pointers handle context textStr samples n
      hvalid haudio hpos, hnew]
  · rw [reinterpret_cast_jbytes_length]; omega
  · exact fun i hi => reinterpret_cast_jbytes_sample samples i hi

theorem generateNative_bytes_witness :
    ∃ buffer : List jbyte,
      (generateNative
        ⟨fun _ => 4096, fun _ _ => ⟨true, some [⟨0, 0, 128, 63⟩, ⟨0, 0, 128, 191⟩], 2⟩⟩
        ⟨fun _ => true⟩ [(4096, 4096)] 4096 (some "hello")).result = some buffer ∧
      (generateNative
        ⟨fun _ => 4096, fun _ _ => ⟨true, some [⟨0, 0, 128, 63⟩, ⟨0, 0, 128, 191⟩], 2⟩⟩
        ⟨fun _ => true⟩ [(4096, 4096)] 4096 (some "hello")).thrown = [] ∧
      (buffer.length : Int) = 4 * 2 ∧
      ∀ (i : Nat) (hi : i < [(⟨0, 0, 128, 63⟩ : float), ⟨0, 0, 128, 191⟩].length),
        (buffer.drop (4 * i)).take 4
          = ([(⟨0, 0, 128, 63⟩ : float), ⟨0, 0, 128, 191⟩].get ⟨i, hi⟩).bytes :=
  generateNative_bytes
    ⟨fun _ => 4096, fun _ _ => ⟨true, some [⟨0, 0, 128, 63⟩, ⟨0, 0, 128, 191⟩], 2⟩⟩
    ⟨fun _ => true⟩ [(4096, 4096)] 4096 4096 "hello"
    [⟨0, 0, 128, 63⟩, ⟨0, 0, 128, 191⟩] 2 (by decide) rfl (by decide) (by decide)
    (by decide) rfl

/-- C5: for a valid handle and a readable text: when `bark_generate_audio` reports that no
audio was produced, the result is a zero-length buffer and nothing is raised (the array
being supplied); when it reports success with a null data pointer or a size that is not
positive, an error is raised and `nullptr` is returned; and whenever an error is raised,
either that second case holds or the generation succeeded and `NewByteArray` gave no
array. -/
theorem generateNative_outcomes (engine : Engine) (env : JNIEnv) (pointers : Registry)
    (handle : jlong) (context : Nat) (textStr : String)
    (hvalid : find pointers handle = some context) :
    ((engine.bark_generate_audio context textStr).generated = false →
      NewByteArray env 0 ≠ none →
      (generateNative engine env pointers handle (some textStr)).result = some [] ∧
      (generateNative engine env pointers handle (some textStr)).thrown = []) ∧
    ((engine.bark_generate_audio context textStr).generated = true →
      ((engine.bark_generate_audio context textStr).data = none ∨
        (engine.bark_generate_audio context textStr).data_size ≤ 0) →
      (generateNative engine env pointers handle (some textStr)).result = none ∧
      (generateNative engine env pointers handle (some textStr)).thrown
        = ["Invalid audio data or size"]) ∧
    ((generateNative engine env pointers handle (some textStr)).thrown ≠ [] →
      ((engine.bark_generate_audio context textStr).generated = true ∧
        ((engine.bark_generate_audio context textStr).data = none ∨
          (engine.bark_generate_audio context textStr).data_size ≤ 0)) ∨
      ((engine.bark_generate_audio context textStr).generated = true ∧
        NewByteArray env (byteLength (engine.bark_generate_audio context textStr).data_size)
          = none)) := by
  rcases haudio : engine.bark_generate_audio context textStr with ⟨generated, data, size⟩
  refine ⟨?_, ?_, ?_⟩
  · intro hgen halloc
    simp only at hgen
    subst hgen
    have hnew : NewByteArray env 0 = some [] := by
      by_cases hheap : env.canAllocate 0 = true
      · exact NewByteArray_zero env hheap
      · exact absurd (by simp [NewByteArray, hheap]) halloc
    simp [generateNative, getPointer, hvalid, haudio, hnew]
  · intro hgen hbad
    simp only at hgen hbad
    subst hgen
    cases data with
    | none => simp [generateNative, getPointer, hvalid, haudio]
    | some samples =>
      have hsize : size ≤ 0 := by simpa using hbad
      simp [generateNative, getPointer, hvalid, haudio, hsize]
  · intro hthrown
    cases generated with
    | false => simp [generateNative, getPointer, hvalid, haudio] at hthrown
    | true =>
      cases data with
      | none => exact Or.inl ⟨rfl, Or.inl rfl⟩
      | some samples =>
        by_cases hsize : size ≤ 0
        · exact Or.inl ⟨rfl, Or.inr hsize⟩
        · refine Or.inr ⟨rfl, ?_⟩
          cases hnew : NewByteArray env (byteLength size) with
          | none => rfl
          | some byteArray =>
            simp [generateNative, getPointer, hvalid, haudio, hsize, hnew] at hthrown

theorem generateNative_outcomes_witness :
    find [(4096, 4096)] 4096 = some 4096 ∧
    ((generateNative ⟨fun _ => 4096, fun _ _ => ⟨false, none, 0⟩⟩ ⟨fun _ => true⟩
        [(4096, 4096)] 4096 (some "hello")).result = some [] ∧
      (generateNative ⟨fun _ => 4096, fun _ _ => ⟨false, none, 0⟩⟩ ⟨fun _ => true⟩
        [(4096, 4096)] 4096 (some "hello")).thrown = []) ∧
    ((generateNative ⟨fun _ => 4096, fun _ _ => ⟨true, some [⟨0, 0, 128, 63⟩], 0⟩⟩
        ⟨fun _ => true⟩ [(4096, 4096)] 4096 (some "hello")).result = none ∧
      (generateNative ⟨fun _ => 4096, fun _ _ => ⟨true, some [⟨0, 0, 128, 63⟩], 0⟩⟩
        ⟨fun _ => true⟩ [(4096, 4096)] 4096 (some "hello")).thrown
          = ["Invalid audio data or size"]) :=
  ⟨by decide,
   (generateNative_outcomes ⟨fun _ => 4096, fun _ _ => ⟨false, none, 0⟩⟩ ⟨fun _ => true⟩
      [(4096, 4096)] 4096 4096 "hello" (by decide)).1 rfl (by decide),
   (generateNative_outcomes ⟨fun _ => 4096, fun _ _ => ⟨true, some [⟨0, 0, 128, 63⟩], 0⟩⟩
      ⟨fun _ => true⟩ [(4096, 4096)] 4096 4096 "hello" (by decide)).2.1 rfl
      (Or.inr (by decide))⟩

/-- C6 (as stated, refuted): the message raised by `initNative` for the empty path is not
"model path should not be empty". -/
theorem initNative_empty_counterexample :
    (initNative ⟨fun _ => 4096, fun _ _ => ⟨false, none, 0⟩⟩ [(8192, 8192)]
      (some "")).thrown ≠ ["model path should not be empty"] := by
  decide

/-- C6 (amended): for every registry, `initNative` on the empty path raises exactly
"Model path should not be empty", returns `-1`, makes no engine call (so `bark_load_model`
is not invoked) and leaves the registry exactly as it was. -/
theorem initNative_empty (engine : Engine) (pointers : Registry) :
    (initNative engine pointers (some "")).thrown = ["Model path should not be empty"] ∧
    (initNative engine pointers (some "")).result = -1 ∧
    (initNative engine pointers (some "")).calls = [] ∧
    (initNative engine pointers (some "")).pointers = pointers := by
  simp [initNative]

end Bark

namespace Piper

/-! Claims on the piper bridge -/

theorem phonemizeNative_isInitialized (engine : Engine) (env : JNIEnv)
    (isInitialized : Bool) (voice text : jstring) :
    (phonemizeNative engine env isInitialized voice text).isInitialized = isInitialized := by
  unfold phonemizeNative
  repeat' split
  all_goals rfl

theorem run_of_noInitSucceeded (calls : List BoundaryCall)
    (hnone : noInitSucceeded false calls = true) : run false calls = false := by
  induction calls with
  | nil => rfl
  | cons call rest ih =>
    simp only [noInitSucceeded, Bool.and_eq_true, Bool.not_eq_true'] at hnone
    obtain ⟨hcall, hrest⟩ := hnone
    have hstep : step false call = false := by
      cases call with
      | initNative engine dataPath =>
        simp only [initSucceeded, decide_eq_false_iff_not] at hcall
        simp only [step, initNative]
        cases dataPath with
        | none => rfl
        | some dataPathStr =>
          by_cases hinit : engine.espeak_Initialize dataPathStr = -1
          · simp [hinit]
          · simp [initNative, hinit] at hcall
      | phonemizeNative engine env voice text =>
        simp only [step, phonemizeNative_isInitialized]
    rw [hstep] at hrest
    simpa [run, hstep] using ih hrest

/-- C7: a call of `initNative` made while the flag is set, whatever the data path
(unreadable ones included), raises nothing, makes no engine call (so `espeak_Initialize`
is not invoked) and leaves the flag set; hence after a call with a readable path that
the engine accepts, which raises nothing and sets the flag, a second call raises nothing
and leaves the state as the first call left it. -/
theorem initNative_idempotent (engine : Engine) (dataPath : jstring) :
    ((initNative engine true dataPath).thrown = [] ∧
      (initNative engine true dataPath).calls = [] ∧
      (initNative engine true dataPath).isInitialized = true) ∧
    ∀ (first : Engine) (isInitialized : Bool) (dataPathStr : String),
      first.espeak_Initialize dataPathStr ≠ -1 →
      (initNative first isInitialized (some dataPathStr)).thrown = [] ∧
      (initNative first isInitialized (some dataPathStr)).isInitialized = true ∧
      (initNative engine (initNative first isInitialized (some dataPathStr)).isInitialized
        dataPath).thrown = [] ∧
      (initNative engine (initNative first isInitialized (some dataPathStr)).isInitialized
        dataPath).calls = [] ∧
      (initNative engine (initNative first isInitialized (some dataPathStr)).isInitialized
        dataPath).isInitialized
        = (initNative first isInitialized (some dataPathStr)).isInitialized := by
  have hset : (initNative engine true dataPath).thrown = [] ∧
      (initNative engine true dataPath).calls = [] ∧
      (initNative engine true dataPath).isInitialized = true := by
    simp [initNative]
  refine ⟨hset, fun first isInitialized dataPathStr hvalid => ?_⟩
  have hfirst : (initNative first isInitialized (some dataPathStr)).thrown = [] ∧
      (initNative first isInitialized (some dataPathStr)).isInitialized = true := by
    cases isInitialized <;> simp [initNative, hvalid]
  refine ⟨hfirst.1, hfirst.2, ?_⟩
  rw [hfirst.2]
  exact hset

theorem initNative_idempotent_witness :
    (initNative ⟨0, fun _ => 22050, fun _ => 0, fun _ => ⟨none, some "", 0⟩⟩ false
      (some "/usr/share/espeak-ng-data")).thrown = [] ∧
    (initNative ⟨0, fun _ => 22050, fun _ => 0, fun _ => ⟨none, some "", 0⟩⟩ false
      (some "/usr/share/espeak-ng-data")).isInitialized = true ∧
    (initNative ⟨0, fun _ => -1, fun _ => 0, fun _ => ⟨none, some "", 0⟩⟩
      (initNative ⟨0, fun _ => 22050, fun _ => 0, fun _ => ⟨none, some "", 0⟩⟩ false
        (some "/usr/share/espeak-ng-data")).isInitialized none).thrown = [] ∧
    (initNative ⟨0, fun _ => -1, fun _ => 0, fun _ => ⟨none, some "", 0⟩⟩
      (initNative ⟨0, fun _ => 22050, fun _ => 0, fun _ => ⟨none, some "", 0⟩⟩ false
        (some "/usr/share/espeak-ng-data")).isInitialized none).calls = [] ∧
    (initNative ⟨0, fun _ => -1, fun _ => 0, fun _ => ⟨none, some "", 0⟩⟩
      (initNative ⟨0, fun _ => 22050, fun _ => 0, fun _ => ⟨none, some "", 0⟩⟩ false
        (some "/usr/share/espeak-ng-data")).isInitialized none).isInitialized
      = (initNative ⟨0, fun _ => 22050, fun _ => 0, fun _ => ⟨none, some "", 0⟩⟩ false
        (some "/usr/share/espeak-ng-data")).isInitialized :=
  (initNative_idempotent ⟨0, fun _ => -1, fun _ => 0, fun _ => ⟨none, some "", 0⟩⟩ none).2
    ⟨0, fun _ => 22050, fun _ => 0, fun _ => ⟨none, some "", 0⟩⟩ false
    "/usr/share/espeak-ng-data" (by decide)

/-- C8: after any sequence of `initNative` and `phonemizeNative` calls from the initial
state in which no `initNative` call succeeded, `phonemizeNative` raises exactly "eSpeak is
not initialized" for every voice and text, returns `nullptr` and makes no engine call
(neither `espeak_SetVoiceByName` nor `espeak_TextToPhonemesWithTerminator`). -/
theorem phonemizeNative_not_ready (calls : List BoundaryCall) (engine : Engine)
    (env : JNIEnv) (voice text : jstring)
    (hnone : noInitSucceeded initial calls = true) :
    (phonemizeNative engine env (run initial calls) voice text).thrown
      = ["eSpeak is not initialized"] ∧
    (phonemizeNative engine env (run initial calls) voice text).result = none ∧
    (phonemizeNative engine env (run initial calls) voice text).calls = [] := by
  have hflag : run initial calls = false := run_of_noInitSucceeded calls hnone
  rw [hflag]
  simp [phonemizeNative]

theorem phonemizeNative_not_ready_witness :
    noInitSucceeded initial
      [BoundaryCall.initNative ⟨0, fun _ => 22050, fun _ => 0, fun _ => ⟨none, some "", 0⟩⟩
          none,
        BoundaryCall.phonemizeNative
          ⟨0, fun _ => 22050, fun _ => 0, fun _ => ⟨none, some "", 0⟩⟩ ⟨true⟩
          (some "en-us") (some "hello"),
        BoundaryCall.initNative ⟨0, fun _ => -1, fun _ => 0, fun _ => ⟨none, some "", 0⟩⟩
          (some "/missing")] = true ∧
    ((phonemizeNative ⟨0, fun _ => 22050, fun _ => 0, fun _ => ⟨none, some "", 0⟩⟩ ⟨true⟩
      (run initial
        [BoundaryCall.initNative
            ⟨0, fun _ => 22050, fun _ => 0, fun _ => ⟨none, some "", 0⟩⟩ none,
          BoundaryCall.phonemizeNative
            ⟨0, fun _ => 22050, fun _ => 0, fun _ => ⟨none, some "", 0⟩⟩ ⟨true⟩
            (some "en-us") (some "hello"),
          BoundaryCall.initNative
            ⟨0, fun _ => -1, fun _ => 0, fun _ => ⟨none, some "", 0⟩⟩ (some "/missing")])
      (some "en-us") (some "hello")).thrown = ["eSpeak is not initialized"] ∧
    (phonemizeNative ⟨0, fun _ => 22050, fun _ => 0, fun _ => ⟨none, some "", 0⟩⟩ ⟨true⟩
      (run initial
        [BoundaryCall.initNative
            ⟨0, fun _ => 22050, fun _ => 0, fun _ => ⟨none, some "", 0⟩⟩ none,
          BoundaryCall.phonemizeNative
            ⟨0, fun _ => 22050, fun _ => 0, fun _ => ⟨none, some "", 0⟩⟩ ⟨true⟩
            (some "en-us") (some "hello"),
          BoundaryCall.initNative
            ⟨0, fun _ => -1, fun _ => 0, fun _ => ⟨none, some "", 0⟩⟩ (some "/missing")])
      (some "en-us") (some "hello")).result = none ∧
    (phonemizeNative ⟨0, fun _ => 22050, fun _ => 0, fun _ => ⟨none, some "", 0⟩⟩ ⟨true⟩
      (run initial
        [BoundaryCall.initNative
            ⟨0, fun _ => 22050, fun _ => 0, fun _ => ⟨none, some "", 0⟩⟩ none,
          BoundaryCall.phonemizeNative
            ⟨0, fun _ => 22050, fun _ => 0, fun _ => ⟨none, some "", 0⟩⟩ ⟨true⟩
            (some "en-us") (some "hello"),
          BoundaryCall.initNative
            ⟨0, fun _ => -1, fun _ => 0, fun _ => ⟨none, some "", 0⟩⟩ (some "/missing")])
      (some "en-us") (some "hello")).calls = []) :=
  ⟨by decide, phonemizeNative_not_ready _ _ _ _ _ (by decide)⟩

/-- C9 (as stated, refuted): a `phonemizeNative` call that returns a result, the engine
having set the text pointer to `NULL` and returned a null phoneme string, yields an array
whose elements 0 and 1 are `null`, not empty strings. -/
theorem phonemizeNative_result_counterexample :
    (phonemizeNative ⟨0, fun _ => 22050, fun _ => 0, fun _ => ⟨none, none, 0⟩⟩ ⟨true⟩ true
      (some "en-us") (some "hello")).thrown = [] ∧
    (phonemizeNative ⟨0, fun _ => 22050, fun _ => 0, fun _ => ⟨none, none, 0⟩⟩ ⟨true⟩ true
      (some "en-us") (some "hello")).result = some [none, none, some "0"] := by
  decide

/-- C9 (amended): every `phonemizeNative` call that returns a result returns an array of
exactly 3 elements: element 0 is the text at the engine's text pointer and element 1 the
engine's phoneme string, each `null` exactly when the engine's pointer is null (no empty
string is substituted), and element 2 always holds the terminator as a decimal string. -/
theorem phonemizeNative_result (engine : Engine) (env : JNIEnv) (isInitialized : Bool)
    (voice text : jstring) (slots : List (Option String))
    (hresult : (phonemizeNative engine env isInitialized voice text).result = some slots) :
    slots.length = 3 ∧
    ∃ textStr : String, text = some textStr ∧
      slots = [(engine.espeak_TextToPhonemesWithTerminator textStr).inputTextPointer,
        (engine.espeak_TextToPhonemesWithTerminator textStr).clausePhonemes,
        some (to_string (engine.espeak_TextToPhonemesWithTerminator textStr).terminator)] := by
  unfold phonemizeNative at hresult
  cases isInitialized with
  | false => simp at hresult
  | true =>
    cases voice with
    | none => simp at hresult
    | some voiceStr =>
      by_cases hvoice : engine.espeak_SetVoiceByName voiceStr = engine.EE_OK
      · cases text with
        | none => simp [hvoice] at hresult
        | some textStr =>
          cases halloc : env.canAllocateArray with
          | false => simp [hvoice, NewObjectArray, halloc] at hresult
          | true =>
            simp [hvoice, NewObjectArray, halloc, SetObjectArrayElement, NewStringUTF,
              List.replicate] at hresult
            subst hresult
            exact ⟨rfl, textStr, rfl, rfl⟩
      · simp [hvoice] at hresult

theorem phonemizeNative_result_witness :
    (phonemizeNative ⟨0, fun _ => 22050, fun _ => 0, fun _ => ⟨some " world", some "h", 1⟩⟩
      ⟨true⟩ true (some "en-us") (some "hello world")).result
      = some [some " world", some "h", some "1"] ∧
    [some " world", some "h", some "1"].length = 3 ∧
    ∃ textStr : String, some "hello world" = some textStr ∧
      [some " world", some "h", some "1"] = [
        ((⟨0, fun _ => 22050, fun _ => 0, fun _ => ⟨some " world", some "h", 1⟩⟩ :
          Engine).espeak_TextToPhonemesWithTerminator textStr).inputTextPointer,
        ((⟨0, fun _ => 22050, fun _ => 0, fun _ => ⟨some " world", some "h", 1⟩⟩ :
          Engine).espeak_TextToPhonemesWithTerminator textStr).clausePhonemes,
        some (to_string
          ((⟨0, fun _ => 22050, fun _ => 0, fun _ => ⟨some " world", some "h", 1⟩⟩ :
            Engine).espeak_TextToPhonemesWithTerminator textStr).terminator)] :=
  ⟨by decide,
   phonemizeNative_result
    ⟨0, fun _ => 22050, fun _ => 0, fun _ => ⟨some " world", some "h", 1⟩⟩ ⟨true⟩ true
    (some "en-us") (some "hello world") [some " world", some "h", some "1"] (by decide)⟩

end Piper

/-! The unload hooks -/

/-- C10 (as stated, refuted): when `GetEnv` does not answer `JNI_OK`, the bark hook leaves
a registered entry in the registry without freeing it, and the piper hook leaves the flag
set without terminating the engine. -/
theorem JNI_OnUnload_counterexample :
    (Bark.JNI_OnUnload false [(4096, 4096)]).pointers = [(4096, 4096)] ∧
    (Bark.JNI_OnUnload false [(4096, 4096)]).calls = [] ∧
    (Piper.JNI_OnUnload false true).isInitialized = true ∧
    (Piper.JNI_OnUnload false true).calls = [] := by
  decide

/-- C10 (amended): for every state, when `GetEnv` answers `JNI_OK` the bark hook leaves the
registry without entries and calls `bark_free` on every registered non-null context, and
the piper hook leaves the flag `false`, calling `espeak_Terminate` exactly when the flag
was set; when `GetEnv` does not answer `JNI_OK` both hooks return with the registry and
the flag as they were and without an engine call. -/
theorem JNI_OnUnload_sweep (pointers : Bark.Registry) (isInitialized : Bool) :
    ((Bark.JNI_OnUnload true pointers).pointers = [] ∧
      (∀ e ∈ pointers, e.2 ≠ 0 →
        Bark.Call.bark_free e.2 ∈ (Bark.JNI_OnUnload true pointers).calls) ∧
      (Piper.JNI_OnUnload true isInitialized).isInitialized = false ∧
      (Piper.JNI_OnUnload true isInitialized).calls
        = (if isInitialized then [Piper.Call.espeak_Terminate] else [])) ∧
    ((Bark.JNI_OnUnload false pointers).pointers = pointers ∧
      (Bark.JNI_OnUnload false pointers).calls = [] ∧
      (Piper.JNI_OnUnload false isInitialized).isInitialized = isInitialized ∧
      (Piper.JNI_OnUnload false isInitialized).calls = []) := by
  refine ⟨⟨rfl, ?_, ?_, ?_⟩, rfl, rfl, rfl, rfl⟩
  · intro e he hnonnull
    simp only [Bark.JNI_OnUnload, Bool.not_true, Bool.false_eq_true, if_false,
      List.mem_flatMap]
    exact ⟨e, he, by simp [Bark.destroy, Bark.bark_context_deleter, hnonnull]⟩
  · cases isInitialized <;> rfl
  · cases isInitialized <;> rfl

theorem JNI_OnUnload_sweep_witness :
    ((Bark.JNI_OnUnload true [(4096, 4096), (8192, 8192)]).pointers = [] ∧
      (∀ e ∈ [((4096 : jlong), 4096), (8192, 8192)], e.2 ≠ 0 →
        Bark.Call.bark_free e.2
          ∈ (Bark.JNI_OnUnload true [(4096, 4096), (8192, 8192)]).calls) ∧
      (Piper.JNI_OnUnload true true).isInitialized = false ∧
      (Piper.JNI_OnUnload true true).calls
        = (if true then [Piper.Call.espeak_Terminate] else [])) ∧
    ((Bark.JNI_OnUnload false [(4096, 4096), (8192, 8192)]).pointers
        = [(4096, 4096), (8192, 8192)] ∧
      (Bark.JNI_OnUnload false [(4096, 4096), (8192, 8192)]).calls = [] ∧
      (Piper.JNI_OnUnload false true).isInitialized = true ∧
      (Piper.JNI_OnUnload false true).calls = []) :=
  JNI_OnUnload_sweep [(4096, 4096), (8192, 8192)] true

end SpeechGeneration
